import Mathlib

/-!
Verification of the Modbus driver (`src/app/src/IO/Drivers/Modbus.cpp`) of
Local-Serial-Studio.  The driver's decision logic is shallowly embedded:
the configuration fields of the `Modbus` class become a Lean structure,
each setter / lifecycle method becomes a pure function from the state to a
new state together with the ordered list of externally visible effects it
performs (settings-store writes, Qt signal emissions, timer operations,
transport calls, log messages).  Machine integers (`quint8`, `quint16`)
are modelled as `Nat` with explicit `% 256` where the C++ code can
overflow.  External collaborators (the Qt Modbus client, the timer, the
settings store) appear only through the effect list and through oracle
parameters for their answers.
-/

namespace ModbusDriver

/-- QSerialPort parity enumeration values used by the driver. -/
inductive Parity
  | NoParity
  | EvenParity
  | OddParity
deriving DecidableEq, Repr

/-- QModbusDataUnit register types. -/
inductive RegisterType
  | Coils
  | DiscreteInputs
  | HoldingRegisters
  | InputRegisters
deriving DecidableEq, Repr

/-- Connection state of the QModbusClient held by the driver. -/
inductive ClientConnState
  | Unconnected
  | Connecting
  | Connected
deriving DecidableEq, Repr

/-- Qt signals the driver emits (payloads carried where the claims need
them). -/
inductive Signal
  | modbusModeChanged
  | slaveAddressChanged
  | functionCodeChanged
  | startAddressChanged
  | registerCountChanged
  | pollIntervalChanged
  | tcpHostChanged
  | tcpPortChanged
  | serialPortIndexChanged
  | baudRateChanged
  | parityChanged
  | availablePortsChanged
  | configurationChanged
  | dataReceived (data : String)
  | connectionError (msg : String)
deriving DecidableEq, Repr

/-- Externally visible effects of a driver operation, in program order. -/
inductive Effect
  | settingsWrite (key : String) (value : Nat)
  | settingsWriteInt (key : String) (value : Int)
  | settingsWriteStr (key : String) (value : String)
  | emitSig (s : Signal)
  | timerStop
  | timerStart (interval : Nat)
  | logDebug (msg : String)
  | logWarning (msg : String)
  | showMessageBox (title : String) (text : String)
  | disconnectSignals
  | connectSignals
  | configureRtu
  | configureTcp
  | connectDevice
  | disconnectDevice
  | deleteClient
  | sendReadRequest (rt : RegisterType) (start : Nat) (count : Nat) (slave : Nat)
  | connectReplyFinished
  | deleteReply
deriving DecidableEq, Repr

/-- The driver's mutable state: the configuration members of the `Modbus`
class, the held client (if any) with its connection state, and the poll
timer's status. -/
structure ModbusState where
  client : Option ClientConnState
  modbusMode : Nat
  slaveAddress : Nat
  functionCode : Nat
  startAddress : Nat
  registerCount : Nat
  pollInterval : Nat
  tcpHost : String
  tcpPort : Nat
  serialPortIndex : Nat
  baudRate : Int
  parity : Parity
  parityIndex : Nat
  pollTimerActive : Bool
  pollTimerPeriod : Nat
  deviceNames : List String
deriving DecidableEq, Repr

/-- The member-initializer defaults of the `Modbus` constructor (before
the settings store overrides them): RTU mode, slave 1, function code 3,
start 0, count 10, interval 1000 ms, host 127.0.0.1:502, port index 0,
9600 baud, no parity, timer idle, no enumerated ports. -/
def defaultState : ModbusState :=
  { client := none
    modbusMode := 0
    slaveAddress := 1
    functionCode := 3
    startAddress := 0
    registerCount := 10
    pollInterval := 1000
    tcpHost := "127.0.0.1"
    tcpPort := 502
    serialPortIndex := 0
    baudRate := 9600
    parity := Parity.NoParity
    parityIndex := 0
    pollTimerActive := false
    pollTimerPeriod := 0
    deviceNames := [] }

/-- `serialPortList()`: the cached device names, or a single placeholder
entry when no enumeration has happened yet. -/
def serialPortList (s : ModbusState) : List String :=
  if s.deviceNames.length > 0 then s.deviceNames else ["选择串口"]

/-- `parityList()`: the three parity choices offered to the user. -/
def parityList : List String := ["无", "偶", "奇"]

/-- `isOpen()`: true iff a client is held and its state is connected. -/
def isOpen (s : ModbusState) : Bool :=
  match s.client with
  | some st => st = ClientConnState.Connected
  | none => false

/-- `formatModbusData(data)`: renders each value with `QString::number`,
joins with `,` (separate but textually identical branches for
coil/discrete-input and register types, as in the source) and appends a
single newline. -/
def formatModbusData (registerType : RegisterType) (values : List Nat) : String :=
  let result :=
    if registerType = RegisterType.Coils ∨ registerType = RegisterType.DiscreteInputs then
      String.intercalate "," (values.map (fun v => toString v))
    else
      String.intercalate "," (values.map (fun v => toString v))
  result ++ "\n"

/-- `setModbusMode(mode)`: accepts any value different from the stored
one; persists, emits `modbusModeChanged` and `configurationChanged`. -/
def setModbusMode (s : ModbusState) (mode : Nat) : ModbusState × List Effect :=
  if s.modbusMode ≠ mode then
    ({ s with modbusMode := mode },
     [Effect.settingsWrite "Modbus_Mode" mode,
      Effect.emitSig Signal.modbusModeChanged,
      Effect.emitSig Signal.configurationChanged])
  else (s, [])

/-- `setSlaveAddress(address)`: accepts a differing value in 1..247;
persists and emits `slaveAddressChanged`. -/
def setSlaveAddress (s : ModbusState) (address : Nat) : ModbusState × List Effect :=
  if s.slaveAddress ≠ address ∧ 1 ≤ address ∧ address ≤ 247 then
    ({ s with slaveAddress := address },
     [Effect.settingsWrite "Modbus_SlaveAddr" address,
      Effect.emitSig Signal.slaveAddressChanged])
  else (s, [])

/-- `setFunctionCode(code)`: when the argument differs from the stored
function code, stores `code + 1` (list index converted to function code,
`quint8` arithmetic), persists the converted value and emits
`functionCodeChanged`.  No range check is performed. -/
def setFunctionCode (s : ModbusState) (code : Nat) : ModbusState × List Effect :=
  if s.functionCode ≠ code then
    let newCode := (code + 1) % 256
    ({ s with functionCode := newCode },
     [Effect.settingsWrite "Modbus_FuncCode" newCode,
      Effect.emitSig Signal.functionCodeChanged])
  else (s, [])

/-- `setStartAddress(address)`: accepts any differing value; persists and
emits `startAddressChanged`. -/
def setStartAddress (s : ModbusState) (address : Nat) : ModbusState × List Effect :=
  if s.startAddress ≠ address then
    ({ s with startAddress := address },
     [Effect.settingsWrite "Modbus_StartAddr" address,
      Effect.emitSig Signal.startAddressChanged])
  else (s, [])

/-- `setRegisterCount(count)`: accepts a differing value in 1..125;
persists and emits `registerCountChanged`. -/
def setRegisterCount (s : ModbusState) (count : Nat) : ModbusState × List Effect :=
  if s.registerCount ≠ count ∧ 0 < count ∧ count ≤ 125 then
    ({ s with registerCount := count },
     [Effect.settingsWrite "Modbus_RegCount" count,
      Effect.emitSig Signal.registerCountChanged])
  else (s, [])

/-- `setPollInterval(interval)`: accepts a differing value that is at
least 100; persists, emits `pollIntervalChanged`, and when the poll timer
is running stops it and restarts it with the new interval. -/
def setPollInterval (s : ModbusState) (interval : Nat) : ModbusState × List Effect :=
  if s.pollInterval ≠ interval ∧ 100 ≤ interval then
    let s1 := { s with pollInterval := interval }
    let effs := [Effect.settingsWrite "Modbus_PollInterval" interval,
                 Effect.emitSig Signal.pollIntervalChanged]
    if s1.pollTimerActive then
      ({ s1 with pollTimerPeriod := interval },
       effs ++ [Effect.timerStop, Effect.timerStart interval])
    else (s1, effs)
  else (s, [])

/-- `setTcpHost(host)`: accepts any differing value; persists, emits
`tcpHostChanged` and `configurationChanged`. -/
def setTcpHost (s : ModbusState) (host : String) : ModbusState × List Effect :=
  if s.tcpHost ≠ host then
    ({ s with tcpHost := host },
     [Effect.settingsWriteStr "Modbus_TcpHost" host,
      Effect.emitSig Signal.tcpHostChanged,
      Effect.emitSig Signal.configurationChanged])
  else (s, [])

/-- `setTcpPort(port)`: accepts any differing value; persists and emits
`tcpPortChanged`. -/
def setTcpPort (s : ModbusState) (port : Nat) : ModbusState × List Effect :=
  if s.tcpPort ≠ port then
    ({ s with tcpPort := port },
     [Effect.settingsWrite "Modbus_TcpPort" port,
      Effect.emitSig Signal.tcpPortChanged])
  else (s, [])

/-- `setSerialPortIndex(index)`: accepts any index below the length of
`serialPortList()` (no difference check, no settings write); emits
`serialPortIndexChanged` and `configurationChanged`. -/
def setSerialPortIndex (s : ModbusState) (index : Nat) : ModbusState × List Effect :=
  if index < (serialPortList s).length then
    ({ s with serialPortIndex := index },
     [Effect.emitSig Signal.serialPortIndexChanged,
      Effect.emitSig Signal.configurationChanged])
  else (s, [])

/-- `setBaudRate(rate)`: accepts a differing positive value; persists and
emits `baudRateChanged`. -/
def setBaudRate (s : ModbusState) (rate : Int) : ModbusState × List Effect :=
  if s.baudRate ≠ rate ∧ 0 < rate then
    ({ s with baudRate := rate },
     [Effect.settingsWriteInt "Modbus_BaudRate" rate,
      Effect.emitSig Signal.baudRateChanged])
  else (s, [])

/-- `setParity(parityIndex)`: accepts any index below the length of
`parityList()` (no difference check); persists the index, updates the
parity enum through the switch (0 → none, 1 → even, 2 → odd, untouched
otherwise) and emits `parityChanged`. -/
def setParity (s : ModbusState) (idx : Nat) : ModbusState × List Effect :=
  if idx < parityList.length then
    let newParity :=
      match idx with
      | 0 => Parity.NoParity
      | 1 => Parity.EvenParity
      | 2 => Parity.OddParity
      | _ => s.parity
    ({ s with parityIndex := idx, parity := newParity },
     [Effect.settingsWrite "Modbus_Parity" idx,
      Effect.emitSig Signal.parityChanged])
  else (s, [])

/-- `stopPolling()`: stops the timer (and logs) only when it is active. -/
def stopPolling (s : ModbusState) : ModbusState × List Effect :=
  if s.pollTimerActive then
    ({ s with pollTimerActive := false },
     [Effect.timerStop, Effect.logDebug "Modbus polling stopped"])
  else (s, [])

/-- `startPolling()`: starts the timer with the configured interval (and
logs) only when it is not already active. -/
def startPolling (s : ModbusState) : ModbusState × List Effect :=
  if s.pollTimerActive then (s, [])
  else
    ({ s with pollTimerActive := true, pollTimerPeriod := s.pollInterval },
     [Effect.timerStart s.pollInterval,
      Effect.logDebug "Modbus polling started"])

/-- `close()`: stops polling; when a client is held, detaches its signal
connections, gracefully disconnects it if connected, and releases it;
always finishes by emitting `configurationChanged`. -/
def close (s : ModbusState) : ModbusState × List Effect :=
  let sp := stopPolling s
  match sp.1.client with
  | some st =>
      ({ sp.1 with client := none },
       sp.2 ++ [Effect.disconnectSignals]
            ++ (if st = ClientConnState.Connected then [Effect.disconnectDevice] else [])
            ++ [Effect.deleteClient, Effect.emitSig Signal.configurationChanged])
  | none => (sp.1, sp.2 ++ [Effect.emitSig Signal.configurationChanged])

/-- Result of `open()`: the new state, the effect trace and the returned
boolean. -/
structure OpenResult where
  state : ModbusState
  effects : List Effect
  ret : Bool
deriving DecidableEq, Repr

/-- The tail of `open()` shared by the RTU and TCP paths: signal hookup
and `connectDevice()`, whose success is an oracle parameter; on failure a
message box shows the transport's error string and `close()` cleans up. -/
def attemptConnect (s : ModbusState) (effs : List Effect) (connectOk : Bool)
    (connectErr : String) : OpenResult :=
  if connectOk then
    { state := s, effects := effs ++ [Effect.connectSignals, Effect.connectDevice], ret := true }
  else
    let cl := close s
    { state := cl.1
      effects := effs ++ [Effect.connectSignals, Effect.connectDevice,
                          Effect.showMessageBox "Modbus连接失败" connectErr] ++ cl.2
      ret := false }

/-- `open(mode)`: closes any existing connection, then per mode either
configures an RTU client (requiring `1 ≤ index < serialPortList length`,
otherwise a configuration-error message box and `false`), configures a
TCP client, or — for an out-of-range mode byte — holds no client and
returns `false`; finally attempts the connection. -/
def openDriver (s : ModbusState) (connectOk : Bool) (connectErr : String) : OpenResult :=
  let cl := close s
  let s1 := cl.1
  if s1.modbusMode = 0 then
    if 1 ≤ s1.serialPortIndex ∧ s1.serialPortIndex < (serialPortList s1).length then
      attemptConnect { s1 with client := some ClientConnState.Unconnected }
        (cl.2 ++ [Effect.configureRtu]) connectOk connectErr
    else
      { state := s1
        effects := cl.2 ++ [Effect.showMessageBox "Modbus RTU配置错误" "请选择有效的串口"]
        ret := false }
  else if s1.modbusMode = 1 then
    attemptConnect { s1 with client := some ClientConnState.Unconnected }
      (cl.2 ++ [Effect.configureTcp]) connectOk connectErr
  else
    { state := s1, effects := cl.2, ret := false }

/-- The register-type mapping in `onPollTimer()`: function codes 1..4 map
to the four read register types, anything else falls back to holding
registers. -/
def registerTypeForCode (c : Nat) : RegisterType :=
  match c with
  | 1 => RegisterType.Coils
  | 2 => RegisterType.DiscreteInputs
  | 3 => RegisterType.HoldingRegisters
  | 4 => RegisterType.InputRegisters
  | _ => RegisterType.HoldingRegisters

/-- Outcome of `sendReadRequest` as seen by `onPollTimer()`: a null reply
with the client's error string, a reply that is already finished, or a
pending reply. -/
inductive SendOutcome
  | failed (errorString : String)
  | syncFinished
  | pending
deriving DecidableEq, Repr

/-- `onPollTimer()`: skips silently when not open; otherwise issues one
read of `registerCount` values at `startAddress` for `slaveAddress`, then
either wires the reply's completion to `onReadReady`, deletes an
already-finished reply, or logs a failed issue. -/
def onPollTimer (s : ModbusState) (outcome : SendOutcome) : List Effect :=
  if isOpen s then
    let rt := registerTypeForCode s.functionCode
    let issue := [Effect.sendReadRequest rt s.startAddress s.registerCount s.slaveAddress]
    match outcome with
    | SendOutcome.pending => issue ++ [Effect.connectReplyFinished]
    | SendOutcome.syncFinished => issue ++ [Effect.deleteReply]
    | SendOutcome.failed err =>
        issue ++ [Effect.logWarning ("Modbus read request failed: " ++ err)]
  else []

/-- A decoded Modbus data unit: register type plus the ordered values. -/
structure ModbusDataUnit where
  registerType : RegisterType
  values : List Nat
deriving DecidableEq, Repr

/-- A completed QModbusReply: `none` error means success with `result`;
`some msg` is the reply's error string. -/
structure ModbusReply where
  error : Option String
  result : ModbusDataUnit
deriving DecidableEq, Repr

/-- `onReadReady()`: on success formats the result and emits
`dataReceived`; on error only logs a warning; schedules the reply for
deletion either way. -/
def onReadReady (reply : ModbusReply) : List Effect :=
  match reply.error with
  | none =>
      [Effect.emitSig (Signal.dataReceived
         (formatModbusData reply.result.registerType reply.result.values)),
       Effect.deleteReply]
  | some msg =>
      [Effect.logWarning ("Modbus read error: " ++ msg), Effect.deleteReply]

/-- True when the effect trace contains a `connectionError` emission. -/
def emitsConnectionError (effs : List Effect) : Bool :=
  effs.any fun e =>
    match e with
    | Effect.emitSig (Signal.connectionError _) => true
    | _ => false

/-- True when the effect trace contains a write to the settings store. -/
def hasSettingsWrite (effs : List Effect) : Bool :=
  effs.any fun e =>
    match e with
    | Effect.settingsWrite _ _ => true
    | Effect.settingsWriteInt _ _ => true
    | Effect.settingsWriteStr _ _ => true
    | _ => false

/-- True when the effect trace surfaces an error to the user (a message
box or a `connectionError` emission). -/
def hasErrorEffect (effs : List Effect) : Bool :=
  effs.any fun e =>
    match e with
    | Effect.showMessageBox _ _ => true
    | Effect.emitSig (Signal.connectionError _) => true
    | _ => false

/-- The parity enum the `setParity` switch assigns for an in-range index. -/
def parityForIndex : Nat → Option Parity
  | 0 => some Parity.NoParity
  | 1 => some Parity.EvenParity
  | 2 => some Parity.OddParity
  | _ => none

/-- Agreement between the stored parity index and the parity enum. -/
def parityConsistent (s : ModbusState) : Bool :=
  parityForIndex s.parityIndex = some s.parity

/-- `close` clears the client, deactivates the poll timer, and keeps the
configuration fields (only the ones later theorems read are listed). -/
theorem close_state (s : ModbusState) :
    (close s).1.client = none ∧
    (close s).1.pollTimerActive = false ∧
    (close s).1.modbusMode = s.modbusMode ∧
    (close s).1.serialPortIndex = s.serialPortIndex ∧
    (close s).1.deviceNames = s.deviceNames ∧
    (close s).1.registerCount = s.registerCount ∧
    (close s).1.startAddress = s.startAddress := by
  rcases hc : s.client with _ | st <;>
    by_cases hp : s.pollTimerActive <;>
      simp [close, stopPolling, hc, hp]

/-- The effect trace of `close` never tries to connect and never surfaces
an error, but always ends with a `configurationChanged` emission. -/
theorem close_effects (s : ModbusState) :
    Effect.connectDevice ∉ (close s).2 ∧
    hasErrorEffect (close s).2 = false ∧
    Effect.emitSig Signal.configurationChanged ∈ (close s).2 := by
  rcases hc : s.client with _ | st
  · by_cases hp : s.pollTimerActive <;>
      simp [close, stopPolling, hasErrorEffect, hc, hp]
  · by_cases hp : s.pollTimerActive <;>
      cases st <;>
        simp [close, stopPolling, hasErrorEffect, hc, hp]

/-- On a state with no client and an idle timer, `close` only emits
`configurationChanged` and leaves the state untouched. -/
theorem close_of_disconnected (s : ModbusState) (hc : s.client = none)
    (hp : s.pollTimerActive = false) :
    close s = (s, [Effect.emitSig Signal.configurationChanged]) := by
  simp [close, stopPolling, hc, hp]

/-- Claim C3: the result formatter returns the decimal renderings of the
values joined by commas in the given (ascending address) order with one
trailing newline, for every register type; in particular `[1,0,1]` as
booleans yields `"1,0,1\n"` and `[10,0,65535]` as registers yields
`"10,0,65535\n"`. -/
theorem formatModbusData_spec :
    (∀ (rt : RegisterType) (values : List Nat),
       formatModbusData rt values =
         String.intercalate "," (values.map (fun v => toString v)) ++ "\n") ∧
    formatModbusData RegisterType.Coils [1, 0, 1] = "1,0,1\n" ∧
    formatModbusData RegisterType.DiscreteInputs [1, 0, 1] = "1,0,1\n" ∧
    formatModbusData RegisterType.HoldingRegisters [10, 0, 65535] = "10,0,65535\n" ∧
    formatModbusData RegisterType.InputRegisters [10, 0, 65535] = "10,0,65535\n" := by
  refine ⟨fun rt values => ?_, by decide, by decide, by decide, by decide⟩
  cases rt <;> simp [formatModbusData]

/-- Claim C8: the two branches of the result formatter compute the same
function, so its output is independent of the register type. -/
theorem formatModbusData_type_independent (rt1 rt2 : RegisterType) (values : List Nat) :
    formatModbusData rt1 values = formatModbusData rt2 values := by
  cases rt1 <;> cases rt2 <;> simp [formatModbusData]

/-- Claim C1, counterexample: 10 is none of the four supported read
function codes (1..4), yet passing it to the function-code setter changes
the stored function code (from 3 to 11 on the default state). -/
theorem setFunctionCode_claim_false :
    ¬ (10 = 1 ∨ 10 = 2 ∨ 10 = 3 ∨ 10 = 4) ∧
    (setFunctionCode defaultState 10).1.functionCode ≠ defaultState.functionCode := by
  decide

/-- Claim C1, amended: the function-code setter performs no range
validation; any argument that differs from the stored function code is
converted to `argument + 1` (mod 256), stored, persisted, and signalled,
while an argument equal to the stored code is ignored. -/
theorem setFunctionCode_behavior (s : ModbusState) (code : Nat) :
    (s.functionCode ≠ code →
       (setFunctionCode s code).1.functionCode = (code + 1) % 256 ∧
       (setFunctionCode s code).2 =
         [Effect.settingsWrite "Modbus_FuncCode" ((code + 1) % 256),
          Effect.emitSig Signal.functionCodeChanged]) ∧
    (s.functionCode = code → setFunctionCode s code = (s, [])) := by
  constructor
  · intro h
    simp [setFunctionCode, h]
  · intro h
    simp [setFunctionCode, h]

/-- Claim C1, witness: on the default state (stored code 3), passing 10
stores 11 with a settings write and a signal, and passing 3 is a no-op. -/
theorem setFunctionCode_behavior_witness :
    ((setFunctionCode defaultState 10).1.functionCode = (10 + 1) % 256 ∧
     (setFunctionCode defaultState 10).2 =
       [Effect.settingsWrite "Modbus_FuncCode" ((10 + 1) % 256),
        Effect.emitSig Signal.functionCodeChanged]) ∧
    setFunctionCode defaultState 3 = (defaultState, []) :=
  ⟨(setFunctionCode_behavior defaultState 10).1 (by decide),
   (setFunctionCode_behavior defaultState 3).2 (by decide)⟩

/-- Claim C10: the parity setter accepts only indices below 3 (the length
of the parity list); an accepted call stores the index and the matching
parity enum (0 → none, 1 → even, 2 → odd) and persists and signals; an
out-of-range index leaves the state unchanged; consequently the
index/enum agreement invariant is preserved by every call. -/
theorem setParity_invariant (s : ModbusState) (idx : Nat) :
    (idx < 3 →
       (setParity s idx).1.parityIndex = idx ∧
       parityForIndex idx = some (setParity s idx).1.parity ∧
       (setParity s idx).2 = [Effect.settingsWrite "Modbus_Parity" idx,
                              Effect.emitSig Signal.parityChanged]) ∧
    (3 ≤ idx → setParity s idx = (s, [])) ∧
    (parityConsistent s = true → parityConsistent (setParity s idx).1 = true) := by
  have hlen : parityList.length = 3 := rfl
  refine ⟨fun h => ?_, fun h => ?_, fun h => ?_⟩
  · interval_cases idx <;>
      simp [setParity, hlen, parityForIndex]
  · have hn : ¬ idx < parityList.length := by omega
    simp [setParity, hn]
  · by_cases hlt : idx < 3
    · interval_cases idx <;>
        simp [setParity, hlen, parityForIndex, parityConsistent]
    · have hn : ¬ idx < parityList.length := by omega
      simpa [setParity, hn] using h

/-- Claim C10, witness: on the default state, index 2 is accepted and
stores the odd parity consistently, index 5 is rejected unchanged, and
consistency is preserved. -/
theorem setParity_invariant_witness :
    ((setParity defaultState 2).1.parityIndex = 2 ∧
     parityForIndex 2 = some (setParity defaultState 2).1.parity ∧
     (setParity defaultState 2).2 = [Effect.settingsWrite "Modbus_Parity" 2,
                                     Effect.emitSig Signal.parityChanged]) ∧
    setParity defaultState 5 = (defaultState, []) ∧
    parityConsistent (setParity defaultState 2).1 = true :=
  ⟨(setParity_invariant defaultState 2).1 (by decide),
   (setParity_invariant defaultState 5).2.1 (by decide),
   (setParity_invariant defaultState 2).2.2 (by decide)⟩

/-- Claim C7: `close()` is idempotent and always safe: from any state it
surfaces no error, leaves the driver disconnected (no client, polling
stopped, `isOpen()` false), emits `configurationChanged`, and a second
consecutive call does the same while leaving the state untouched. -/
theorem close_idempotent (s : ModbusState) :
    (close s).1.client = none ∧
    (close s).1.pollTimerActive = false ∧
    isOpen (close s).1 = false ∧
    hasErrorEffect (close s).2 = false ∧
    Effect.emitSig Signal.configurationChanged ∈ (close s).2 ∧
    close (close s).1 = ((close s).1, [Effect.emitSig Signal.configurationChanged]) := by
  obtain ⟨h1, h2, -, -, -, -, -⟩ := close_state s
  obtain ⟨-, h4, h5⟩ := close_effects s
  refine ⟨h1, h2, ?_, h4, h5, close_of_disconnected _ h1 h2⟩
  simp [isOpen, h1]

/-- Claim C4: with RTU mode and no valid serial port index (0, or at or
beyond the port-list length), for any register count in 1..125 and start
address in 0..65535, `open()` returns false, holds no client, shows the
configuration-error message box, and never calls `connectDevice`. -/
theorem openDriver_rtu_invalid_port (s : ModbusState) (connectOk : Bool)
    (connectErr : String) (hmode : s.modbusMode = 0)
    (hidx : s.serialPortIndex = 0 ∨ (serialPortList s).length ≤ s.serialPortIndex)
    (hcount1 : 1 ≤ s.registerCount) (hcount2 : s.registerCount ≤ 125)
    (haddr : s.startAddress ≤ 65535) :
    (openDriver s connectOk connectErr).ret = false ∧
    (openDriver s connectOk connectErr).state.client = none ∧
    Effect.connectDevice ∉ (openDriver s connectOk connectErr).effects ∧
    Effect.showMessageBox "Modbus RTU配置错误" "请选择有效的串口"
      ∈ (openDriver s connectOk connectErr).effects := by
  obtain ⟨hc, hp, hm, hsi, hdn, -, -⟩ := close_state s
  obtain ⟨hnc, -, -⟩ := close_effects s
  have hlist : serialPortList (close s).1 = serialPortList s := by
    simp [serialPortList, hdn]
  have hinvalid : ¬ (1 ≤ s.serialPortIndex ∧
      s.serialPortIndex < (serialPortList s).length) := by
    rcases hidx with h | h <;> omega
  have heq : openDriver s connectOk connectErr =
      { state := (close s).1
        effects := (close s).2 ++ [Effect.showMessageBox "Modbus RTU配置错误" "请选择有效的串口"]
        ret := false } := by
    simp only [openDriver, hm, hmode, hsi, hlist]
    simp [hinvalid]
  rw [heq]
  exact ⟨rfl, hc, by simp [hnc], by simp⟩

/-- Claim C4, witness: the default state is RTU with port index 0, count
10, start 0; opening it fails with the configuration message box and no
connect call. -/
theorem openDriver_rtu_invalid_port_witness :
    (openDriver defaultState true "x").ret = false ∧
    (openDriver defaultState true "x").state.client = none ∧
    Effect.connectDevice ∉ (openDriver defaultState true "x").effects ∧
    Effect.showMessageBox "Modbus RTU配置错误" "请选择有效的串口"
      ∈ (openDriver defaultState true "x").effects :=
  openDriver_rtu_invalid_port defaultState true "x" (by decide) (Or.inl (by decide))
    (by decide) (by decide) (by decide)

/-- Claim C6: an interval below 100 leaves the stored interval and the
timer untouched; an interval of at least 100 that differs from the stored
one, while the timer is active, is stored and the timer is stopped and
immediately restarted with the new interval as its period. -/
theorem setPollInterval_spec (s : ModbusState) (interval : Nat) :
    (interval < 100 → setPollInterval s interval = (s, [])) ∧
    (100 ≤ interval → s.pollInterval ≠ interval → s.pollTimerActive = true →
       (setPollInterval s interval).1.pollInterval = interval ∧
       (setPollInterval s interval).1.pollTimerActive = true ∧
       (setPollInterval s interval).1.pollTimerPeriod = interval ∧
       (setPollInterval s interval).2 =
         [Effect.settingsWrite "Modbus_PollInterval" interval,
          Effect.emitSig Signal.pollIntervalChanged,
          Effect.timerStop, Effect.timerStart interval]) := by
  constructor
  · intro h
    have hn : ¬ (s.pollInterval ≠ interval ∧ 100 ≤ interval) := by omega
    simp [setPollInterval, hn]
  · intro h100 hne hact
    simp only [setPollInterval]
    rw [if_pos ⟨hne, h100⟩]
    simp [hact]

/-- A driver state whose poll timer is running, used to exercise the
timer-restart branch. -/
def pollingState : ModbusState :=
  { defaultState with pollTimerActive := true, pollTimerPeriod := 1000 }

/-- Claim C6, witness: on a polling state with interval 1000, setting 50
is a no-op and setting 200 stores 200 and restarts the timer at 200. -/
theorem setPollInterval_spec_witness :
    setPollInterval pollingState 50 = (pollingState, []) ∧
    ((setPollInterval pollingState 200).1.pollInterval = 200 ∧
     (setPollInterval pollingState 200).1.pollTimerActive = true ∧
     (setPollInterval pollingState 200).1.pollTimerPeriod = 200 ∧
     (setPollInterval pollingState 200).2 =
       [Effect.settingsWrite "Modbus_PollInterval" 200,
        Effect.emitSig Signal.pollIntervalChanged,
        Effect.timerStop, Effect.timerStart 200]) :=
  ⟨(setPollInterval_spec pollingState 50).1 (by decide),
   (setPollInterval_spec pollingState 200).2 (by decide) (by decide) (by decide)⟩

/-- A reply that completed with an error, as `onReadReady` receives it. -/
def erroredReply : ModbusReply :=
  { error := some "timeout"
    result := { registerType := RegisterType.HoldingRegisters, values := [] } }

/-- A reply that completed successfully with three register values. -/
def successReply : ModbusReply :=
  { error := none
    result := { registerType := RegisterType.HoldingRegisters, values := [1, 2, 3] } }

/-- A driver state holding a connected client. -/
def connectedState : ModbusState :=
  { defaultState with client := some ClientConnState.Connected }

/-- Claim C2, counterexample: a read request that completed with an error
reaches `onReadReady`, yet no connection-error event is emitted (the
error is only logged). -/
theorem onReadReady_claim_false :
    erroredReply.error ≠ none ∧
    emitsConnectionError (onReadReady erroredReply) = false := by
  decide

/-- Claim C2, amended: for a request whose completion reaches
`onReadReady`, success hands the decoded values to the formatter and
emits `dataReceived`, while an error is only logged — no connection-error
event is raised from this path — and the reply is disposed either way;
moreover a request that is already finished when issued is deleted by
`onPollTimer` without any processing. -/
theorem onReadReady_behavior (r : ModbusReply) :
    Effect.deleteReply ∈ onReadReady r ∧
    emitsConnectionError (onReadReady r) = false ∧
    (r.error = none →
       onReadReady r =
         [Effect.emitSig (Signal.dataReceived
            (formatModbusData r.result.registerType r.result.values)),
          Effect.deleteReply]) ∧
    (∀ msg, r.error = some msg →
       onReadReady r =
         [Effect.logWarning ("Modbus read error: " ++ msg), Effect.deleteReply]) ∧
    (∀ s : ModbusState, isOpen s = true →
       onPollTimer s SendOutcome.syncFinished =
         [Effect.sendReadRequest (registerTypeForCode s.functionCode)
            s.startAddress s.registerCount s.slaveAddress,
          Effect.deleteReply]) := by
  refine ⟨?_, ?_, ?_, ?_, ?_⟩
  · rcases he : r.error with _ | msg <;> simp [onReadReady, he]
  · rcases he : r.error with _ | msg <;>
      simp [onReadReady, emitsConnectionError, he]
  · intro he
    simp [onReadReady, he]
  · intro msg he
    simp [onReadReady, he]
  · intro s hs
    simp [onPollTimer, hs]

/-- Claim C2, witness: the successful reply `[1,2,3]` yields a
`dataReceived` emission and disposal, the errored reply yields only a log
and disposal, and a synchronously finished request on a connected state
is deleted unprocessed. -/
theorem onReadReady_behavior_witness :
    (onReadReady successReply =
       [Effect.emitSig (Signal.dataReceived
          (formatModbusData successReply.result.registerType successReply.result.values)),
        Effect.deleteReply]) ∧
    (onReadReady erroredReply =
       [Effect.logWarning ("Modbus read error: " ++ "timeout"), Effect.deleteReply]) ∧
    onPollTimer connectedState SendOutcome.syncFinished =
      [Effect.sendReadRequest (registerTypeForCode connectedState.functionCode)
         connectedState.startAddress connectedState.registerCount
         connectedState.slaveAddress,
       Effect.deleteReply] :=
  ⟨(onReadReady_behavior successReply).2.2.1 rfl,
   (onReadReady_behavior erroredReply).2.2.2.1 "timeout" rfl,
   (onReadReady_behavior erroredReply).2.2.2.2 connectedState rfl⟩

/-- A driver state with one real enumerated serial port after the
placeholder. -/
def portState : ModbusState :=
  { defaultState with deviceNames := ["选择串口", "COM1"] }

/-- Claim C5, counterexample: setting the serial port index from 0 to the
accepted index 1 is a successful mutation (value stored, signals raised),
yet no write to the durable settings store occurs. -/
theorem setSerialPortIndex_claim_false :
    portState.serialPortIndex = 0 ∧
    (setSerialPortIndex portState 1).1.serialPortIndex = 1 ∧
    hasSettingsWrite (setSerialPortIndex portState 1).2 = false := by
  decide

/-- Claim C5, amended: every successful mutation through a configuration
setter persists the field and emits the field's change signal — except
the serial-port-index setter, which emits its change signals but writes
nothing to the settings store. -/
theorem setters_persist_except_serial (s : ModbusState) :
    (∀ m, s.modbusMode ≠ m →
       (setModbusMode s m).2 =
         [Effect.settingsWrite "Modbus_Mode" m,
          Effect.emitSig Signal.modbusModeChanged,
          Effect.emitSig Signal.configurationChanged]) ∧
    (∀ a, s.slaveAddress ≠ a → 1 ≤ a → a ≤ 247 →
       (setSlaveAddress s a).2 =
         [Effect.settingsWrite "Modbus_SlaveAddr" a,
          Effect.emitSig Signal.slaveAddressChanged]) ∧
    (∀ c, s.functionCode ≠ c →
       (setFunctionCode s c).2 =
         [Effect.settingsWrite "Modbus_FuncCode" ((c + 1) % 256),
          Effect.emitSig Signal.functionCodeChanged]) ∧
    (∀ a, s.startAddress ≠ a →
       (setStartAddress s a).2 =
         [Effect.settingsWrite "Modbus_StartAddr" a,
          Effect.emitSig Signal.startAddressChanged]) ∧
    (∀ c, s.registerCount ≠ c → 0 < c → c ≤ 125 →
       (setRegisterCount s c).2 =
         [Effect.settingsWrite "Modbus_RegCount" c,
          Effect.emitSig Signal.registerCountChanged]) ∧
    (∀ i, s.pollInterval ≠ i → 100 ≤ i →
       Effect.settingsWrite "Modbus_PollInterval" i ∈ (setPollInterval s i).2 ∧
       Effect.emitSig Signal.pollIntervalChanged ∈ (setPollInterval s i).2) ∧
    (∀ h, s.tcpHost ≠ h →
       (setTcpHost s h).2 =
         [Effect.settingsWriteStr "Modbus_TcpHost" h,
          Effect.emitSig Signal.tcpHostChanged,
          Effect.emitSig Signal.configurationChanged]) ∧
    (∀ p, s.tcpPort ≠ p →
       (setTcpPort s p).2 =
         [Effect.settingsWrite "Modbus_TcpPort" p,
          Effect.emitSig Signal.tcpPortChanged]) ∧
    (∀ r, s.baudRate ≠ r → 0 < r →
       (setBaudRate s r).2 =
         [Effect.settingsWriteInt "Modbus_BaudRate" r,
          Effect.emitSig Signal.baudRateChanged]) ∧
    (∀ i, i < 3 →
       (setParity s i).2 =
         [Effect.settingsWrite "Modbus_Parity" i,
          Effect.emitSig Signal.parityChanged]) ∧
    (∀ i, i < (serialPortList s).length →
       (setSerialPortIndex s i).2 =
         [Effect.emitSig Signal.serialPortIndexChanged,
          Effect.emitSig Signal.configurationChanged] ∧
       hasSettingsWrite (setSerialPortIndex s i).2 = false) := by
  have hlen : parityList.length = 3 := rfl
  refine ⟨fun m hm => ?_, fun a h1 h2 h3 => ?_, fun c hc => ?_, fun a ha => ?_,
    fun c h1 h2 h3 => ?_, fun i h1 h2 => ?_, fun h hh => ?_, fun p hp => ?_,
    fun r h1 h2 => ?_, fun i hi => ?_, fun i hi => ?_⟩
  · simp [setModbusMode, hm]
  · simp only [setSlaveAddress]
    rw [if_pos ⟨h1, h2, h3⟩]
  · simp [setFunctionCode, hc]
  · simp [setStartAddress, ha]
  · simp only [setRegisterCount]
    rw [if_pos ⟨h1, h2, h3⟩]
  · simp only [setPollInterval]
    rw [if_pos ⟨h1, h2⟩]
    by_cases hact : s.pollTimerActive <;> simp [hact]
  · simp [setTcpHost, hh]
  · simp [setTcpPort, hp]
  · simp only [setBaudRate]
    rw [if_pos ⟨h1, h2⟩]
  · have hi3 : i < parityList.length := by omega
    interval_cases i <;> simp [setParity, hlen]
  · constructor
    · simp [setSerialPortIndex, hi]
    · simp [setSerialPortIndex, hi, hasSettingsWrite]

/-- Claim C5, witness: on a state with one real port, each setter's
success case at a concrete value persists and signals, while the
serial-port-index setter signals without persisting. -/
theorem setters_persist_except_serial_witness :
    ((setSlaveAddress portState 5).2 =
       [Effect.settingsWrite "Modbus_SlaveAddr" 5,
        Effect.emitSig Signal.slaveAddressChanged]) ∧
    ((setStartAddress portState 7).2 =
       [Effect.settingsWrite "Modbus_StartAddr" 7,
        Effect.emitSig Signal.startAddressChanged]) ∧
    ((setSerialPortIndex portState 1).2 =
       [Effect.emitSig Signal.serialPortIndexChanged,
        Effect.emitSig Signal.configurationChanged] ∧
     hasSettingsWrite (setSerialPortIndex portState 1).2 = false) :=
  ⟨(setters_persist_except_serial portState).2.1 5 (by decide) (by decide) (by decide),
   (setters_persist_except_serial portState).2.2.2.1 7 (by decide),
   (setters_persist_except_serial portState).2.2.2.2.2.2.2.2.2.2 1 (by decide)⟩

/-- Claim C9, counterexample: the parity setter is another setter that
notifies even when the new value equals the stored one — on the default
state (stored parity index 0), setting index 0 still emits
`parityChanged` — so the serial-port-index setter is not unique in this. -/
theorem setters_equal_noop_claim_false :
    defaultState.parityIndex = 0 ∧
    Effect.emitSig Signal.parityChanged ∈ (setParity defaultState 0).2 := by
  decide

/-- Claim C9, amended: for every index below the serial-port-list length
the serial-port-index setter emits both its change signal and
`configurationChanged`, even when the index equals the stored value; the
parity setter likewise notifies on an equal in-range index; every other
setter is a no-op when the new value equals the old. -/
theorem setSerialPortIndex_always_notifies (s : ModbusState) :
    (∀ i, i < (serialPortList s).length →
       (setSerialPortIndex s i).2 =
         [Effect.emitSig Signal.serialPortIndexChanged,
          Effect.emitSig Signal.configurationChanged]) ∧
    (∀ i, i < 3 → Effect.emitSig Signal.parityChanged ∈ (setParity s i).2) ∧
    (setModbusMode s s.modbusMode = (s, []) ∧
     setSlaveAddress s s.slaveAddress = (s, []) ∧
     setFunctionCode s s.functionCode = (s, []) ∧
     setStartAddress s s.startAddress = (s, []) ∧
     setRegisterCount s s.registerCount = (s, []) ∧
     setPollInterval s s.pollInterval = (s, []) ∧
     setTcpHost s s.tcpHost = (s, []) ∧
     setTcpPort s s.tcpPort = (s, []) ∧
     setBaudRate s s.baudRate = (s, [])) := by
  have hlen : parityList.length = 3 := rfl
  refine ⟨fun i hi => ?_, fun i hi => ?_, ?_⟩
  · simp [setSerialPortIndex, hi]
  · interval_cases i <;> simp [setParity, hlen]
  · refine ⟨?_, ?_, ?_, ?_, ?_, ?_, ?_, ?_, ?_⟩ <;>
      simp [setModbusMode, setSlaveAddress, setFunctionCode, setStartAddress,
            setRegisterCount, setPollInterval, setTcpHost, setTcpPort, setBaudRate]

/-- Claim C9, witness: on the port state (stored index 0), setting index
0 — equal to the stored value — still emits both signals, and setting
the equal parity index 0 still emits `parityChanged`. -/
theorem setSerialPortIndex_always_notifies_witness :
    (setSerialPortIndex portState 0).2 =
      [Effect.emitSig Signal.serialPortIndexChanged,
       Effect.emitSig Signal.configurationChanged] ∧
    Effect.emitSig Signal.parityChanged ∈ (setParity portState 0).2 :=
  ⟨(setSerialPortIndex_always_notifies portState).1 0 (by decide),
   (setSerialPortIndex_always_notifies portState).2.1 0 (by decide)⟩

end ModbusDriver
